import Mathlib

/-!
Shallow embedding of the SwasthiQ EMR appointment system
(backend/utils/conflict_detector.py, backend/models/appointment.py,
backend/services/appointment_service.py, backend/graphql_schema/*).

Times of day (HH:MM strings in the source) are represented by the
`HHMM` structure holding the parsed hour and minute; parsing and
formatting round-trip on well-formed times, and all comparisons in the
source go through `datetime` values that order exactly like
minutes-since-midnight, so this representation is faithful.
Durations and buffers are `Nat`, matching the non-negative domain of
every claim. The nondeterministic inputs of the service (`uuid4().hex`
and `datetime.utcnow().isoformat()`) are passed as explicit string
parameters. Raised exceptions become `Except` values: `ValueError msg`
raises are `SvcError.valueError msg`; pydantic model validation
failures are `SvcError.validationError`.
-/

/-- A parsed HH:MM time of day (hour and minute components). -/
structure HHMM where
  hour : Nat
  minute : Nat
deriving DecidableEq

/-- `time_to_minutes` from conflict_detector.py: hour * 60 + minute. -/
def timeToMinutes (t : HHMM) : Nat := t.hour * 60 + t.minute

/-- Inverse direction of strftime on a minute count: `datetime` day
arithmetic makes the displayed hour wrap modulo 24. -/
def minutesToTime (m : Nat) : HHMM := ⟨m / 60 % 24, m % 60⟩

/-- `add_minutes` from conflict_detector.py: parse, add a timedelta,
format again (wrapping past midnight like strftime does). -/
def add_minutes (t : HHMM) (minutes : Nat) : HHMM :=
  minutesToTime (timeToMinutes t + minutes)

/-- Zero-padded two-digit rendering used by strftime for %H and %M. -/
def pad2 (n : Nat) : String := if n < 10 then "0" ++ toString n else toString n

/-- strftime('%H:%M') on a parsed time. -/
def formatTime (t : HHMM) : String := pad2 t.hour ++ ":" ++ pad2 t.minute

/-- `detect_overlap` from conflict_detector.py. -/
def detect_overlap (slot1_start : HHMM) (slot1_duration : Nat)
    (slot2_start : HHMM) (slot2_duration : Nat)
    (buffer_minutes : Nat) : Bool × Option String :=
  let start1 := timeToMinutes slot1_start
  let end1 := start1 + slot1_duration + buffer_minutes
  let start2 := timeToMinutes slot2_start
  let end2 := start2 + slot2_duration + buffer_minutes
  if start1 < end2 ∧ start2 < end1 then
    (true,
      some ("Conflict detected: Slot 1 (" ++ formatTime slot1_start ++ "-"
        ++ formatTime (add_minutes slot1_start slot1_duration)
        ++ ") overlaps with Slot 2 (" ++ formatTime slot2_start ++ "-"
        ++ formatTime (add_minutes slot2_start slot2_duration) ++ ")"))
  else
    (false, none)

/-- `validate_business_hours` from conflict_detector.py. -/
def validate_business_hours (t : HHMM) (min_hour max_hour : Int) : Bool :=
  decide (min_hour ≤ (t.hour : Int) ∧ (t.hour : Int) < max_hour)

/-- An appointment row of the mock database in appointment_service.py. -/
structure AppointmentRec where
  id : String
  patient_name : String
  date : String
  time : HHMM
  duration : Nat
  doctor_name : String
  status : String
  mode : String
  created_at : String
deriving DecidableEq

/-- Membership test on a list of strings (Python `in` on a list). -/
def listHas (l : List String) (s : String) : Bool :=
  l.any (fun x => decide (x = s))

/-- The status values of `AppointmentResponse.status` in models/appointment.py. -/
def allowedStatuses : List String :=
  ["Scheduled", "Confirmed", "Upcoming", "Completed", "Cancelled"]

/-- The mode values of `AppointmentBase.mode` in models/appointment.py. -/
def allowedModes : List String := ["In-person", "Video", "Phone"]

/-- The status values of `CreateAppointmentInput.status` in models/appointment.py. -/
def allowedCreateStatuses : List String := ["Scheduled", "Confirmed", "Upcoming"]

/-- Split a character list on the dash character (for date parsing). -/
def splitOnDash : List Char → List (List Char)
  | [] => [[]]
  | c :: cs =>
    if c = '-' then [] :: splitOnDash cs
    else
      match splitOnDash cs with
      | g :: gs => (c :: g) :: gs
      | [] => [[c]]

/-- Numeric value of a digit string (Python `int` on the matched group). -/
def natOfDigits (cs : List Char) : Nat :=
  cs.foldl (fun n c => n * 10 + (c.toNat - 48)) 0

/-- Gregorian leap year rule used by `datetime`. -/
def isLeapYear (y : Nat) : Bool :=
  (decide (y % 4 = 0) && !(decide (y % 100 = 0))) || decide (y % 400 = 0)

/-- Days in a month, as `datetime.date` validates them. -/
def daysInMonth (y m : Nat) : Nat :=
  if m = 2 then (if isLeapYear y then 29 else 28)
  else if m = 4 ∨ m = 6 ∨ m = 9 ∨ m = 11 then 30 else 31

/-- The `validate_date_format` check of models/appointment.py:
`datetime.strptime(v, '%Y-%m-%d')` succeeds, i.e. a four-digit year of
at least 1, a one- or two-digit month in 1..12, and a one- or
two-digit day valid for that month. -/
def dateOk (s : String) : Bool :=
  match splitOnDash s.data with
  | [y, mo, d] =>
    y.all Char.isDigit && decide (y.length = 4) &&
    mo.all Char.isDigit && decide (1 ≤ mo.length) && decide (mo.length ≤ 2) &&
    d.all Char.isDigit && decide (1 ≤ d.length) && decide (d.length ≤ 2) &&
    decide (1 ≤ natOfDigits y) &&
    decide (1 ≤ natOfDigits mo) && decide (natOfDigits mo ≤ 12) &&
    decide (1 ≤ natOfDigits d) &&
    decide (natOfDigits d ≤ daysInMonth (natOfDigits y) (natOfDigits mo))
  | _ => false

/-- The `validate_time_format` check of models/appointment.py on the
parsed representation: strptime('%H:%M') only accepts hours below 24
and minutes below 60. -/
def timeOk (t : HHMM) : Bool := decide (t.hour < 24) && decide (t.minute < 60)

/-- The pydantic length bounds on `patient_name` and `doctor_name`. -/
def nameOk (s : String) : Bool := decide (2 ≤ s.length) && decide (s.length ≤ 100)

/-- The pydantic bounds on `duration` (ge=15, le=240). -/
def durationOk (d : Nat) : Bool := decide (15 ≤ d) && decide (d ≤ 240)

/-- Validation performed by constructing `AppointmentResponse(**apt)`
in models/appointment.py (id and created_at are unconstrained str fields). -/
def responseValid (r : AppointmentRec) : Bool :=
  nameOk r.patient_name && dateOk r.date && timeOk r.time &&
  durationOk r.duration && nameOk r.doctor_name &&
  listHas allowedModes r.mode && listHas allowedStatuses r.status

/-- The fields of `CreateAppointmentInput` from models/appointment.py. -/
structure CreateInput where
  patient_name : String
  date : String
  time : HHMM
  duration : Nat
  doctor_name : String
  mode : String
  status : Option String
deriving DecidableEq

/-- Validation performed by constructing a `CreateAppointmentInput`. -/
def createInputValid (inp : CreateInput) : Bool :=
  nameOk inp.patient_name && dateOk inp.date && timeOk inp.time &&
  durationOk inp.duration && nameOk inp.doctor_name &&
  listHas allowedModes inp.mode &&
  (match inp.status with
   | none => true
   | some s => listHas allowedCreateStatuses s)

/-- Python `x or default` on an optional string (None and "" are falsy). -/
def pyOrString (v : Option String) (dflt : String) : String :=
  match v with
  | none => dflt
  | some s => if s = "" then dflt else s

/-- Failures raised by the service layer: `ValueError(msg)` raises, and
pydantic model-validation errors. -/
inductive SvcError where
  | valueError (msg : String)
  | validationError
deriving DecidableEq

instance {ε α : Type} [DecidableEq ε] [DecidableEq α] : DecidableEq (Except ε α) := fun x y =>
  match x, y with
  | .ok a, .ok b =>
    if h : a = b then .isTrue (by rw [h]) else .isFalse (by intro hh; cases hh; exact h rfl)
  | .error a, .error b =>
    if h : a = b then .isTrue (by rw [h]) else .isFalse (by intro hh; cases hh; exact h rfl)
  | .ok _, .error _ => .isFalse (by intro h; cases h)
  | .error _, .ok _ => .isFalse (by intro h; cases h)

/-- The not-found message raised by update and delete. -/
def notFoundMsg (appointment_id : String) : String :=
  "Appointment with ID " ++ appointment_id ++ " not found"

/-- `f"apt-{uuid4().hex[:8]}"`: the generated id from the hex string. -/
def makeNewId (uuidHex : String) : String :=
  "apt-" ++ String.mk (uuidHex.data.take 8)

/-- The seeded mock database `appointments_db` of appointment_service.py. -/
def appointments_db : List AppointmentRec :=
  [ { id := "apt-001", patient_name := "Rajesh Kumar", date := "2025-12-27",
      time := ⟨9, 0⟩, duration := 30, doctor_name := "Dr. Sarah Johnson",
      status := "Confirmed", mode := "In-person",
      created_at := "2025-12-26T10:30:00Z" },
    { id := "apt-002", patient_name := "Priya Sharma", date := "2025-12-27",
      time := ⟨10, 0⟩, duration := 45, doctor_name := "Dr. Rajesh Verma",
      status := "Scheduled", mode := "Video",
      created_at := "2025-12-26T11:00:00Z" },
    { id := "apt-003", patient_name := "Amit Patel", date := "2025-12-27",
      time := ⟨11, 30⟩, duration := 30, doctor_name := "Dr. Sarah Johnson",
      status := "Upcoming", mode := "In-person",
      created_at := "2025-12-26T12:00:00Z" },
    { id := "apt-004", patient_name := "Sneha Reddy", date := "2025-12-28",
      time := ⟨14, 0⟩, duration := 60, doctor_name := "Dr. Anjali Desai",
      status := "Confirmed", mode := "In-person",
      created_at := "2025-12-26T14:30:00Z" },
    { id := "apt-005", patient_name := "Vikram Singh", date := "2025-12-26",
      time := ⟨15, 30⟩, duration := 30, doctor_name := "Dr. Sarah Johnson",
      status := "Completed", mode := "Phone",
      created_at := "2025-12-25T09:00:00Z" },
    { id := "apt-006", patient_name := "Lakshmi Iyer", date := "2025-12-29",
      time := ⟨9, 30⟩, duration := 45, doctor_name := "Dr. Rajesh Verma",
      status := "Scheduled", mode := "Video",
      created_at := "2025-12-26T16:00:00Z" },
    { id := "apt-007", patient_name := "Arjun Mehta", date := "2025-12-30",
      time := ⟨11, 0⟩, duration := 30, doctor_name := "Dr. Anjali Desai",
      status := "Scheduled", mode := "In-person",
      created_at := "2025-12-26T17:00:00Z" },
    { id := "apt-008", patient_name := "Kavya Nair", date := "2025-12-25",
      time := ⟨10, 0⟩, duration := 60, doctor_name := "Dr. Sarah Johnson",
      status := "Cancelled", mode := "In-person",
      created_at := "2025-12-24T10:00:00Z" },
    { id := "apt-009", patient_name := "Rohit Kapoor", date := "2025-12-31",
      time := ⟨16, 0⟩, duration := 30, doctor_name := "Dr. Rajesh Verma",
      status := "Upcoming", mode := "Video",
      created_at := "2025-12-26T18:00:00Z" },
    { id := "apt-010", patient_name := "Ananya Chatterjee", date := "2026-01-02",
      time := ⟨9, 0⟩, duration := 45, doctor_name := "Dr. Anjali Desai",
      status := "Scheduled", mode := "In-person",
      created_at := "2025-12-26T19:00:00Z" },
    { id := "apt-011", patient_name := "Deepak Rao", date := "2025-12-28",
      time := ⟨10, 30⟩, duration := 30, doctor_name := "Dr. Sarah Johnson",
      status := "Confirmed", mode := "In-person",
      created_at := "2025-12-26T20:00:00Z" },
    { id := "apt-012", patient_name := "Neha Gupta", date := "2025-12-29",
      time := ⟨15, 0⟩, duration := 45, doctor_name := "Dr. Anjali Desai",
      status := "Upcoming", mode := "Video",
      created_at := "2025-12-26T21:00:00Z" } ]

/-- `calculate_end_time` from appointment_service.py: parse the start,
add the duration, format again (wrapping past midnight like strftime). -/
def calculate_end_time (start_time : HHMM) (duration : Nat) : HHMM :=
  minutesToTime (timeToMinutes start_time + duration)

/-- `check_time_overlap` from appointment_service.py; parsed datetimes
compare exactly like minutes since midnight. -/
def check_time_overlap (start1 end1 start2 end2 : HHMM) : Bool :=
  decide (timeToMinutes start1 < timeToMinutes end2) &&
  decide (timeToMinutes start2 < timeToMinutes end1)

/-- The candidate-and-overlap condition of the conflict-detection loop
inside `create_appointment`. -/
def conflictCandidate (inp : CreateInput) (newEnd : HHMM) (a : AppointmentRec) : Bool :=
  decide (a.doctor_name = inp.doctor_name) && decide (a.date = inp.date) &&
  !(listHas ["Cancelled", "Completed"] a.status) &&
  check_time_overlap inp.time newEnd a.time (calculate_end_time a.time a.duration)

/-- The conflict `ValueError` message of `create_appointment`. -/
def conflictMsg (inp : CreateInput) (a : AppointmentRec) : String :=
  "Time conflict: " ++ inp.doctor_name ++ " already has an appointment from "
    ++ formatTime a.time ++ " to "
    ++ formatTime (calculate_end_time a.time a.duration)
    ++ " on " ++ inp.date

/-- The dict appended by `create_appointment` on success. -/
def newRecord (inp : CreateInput) (uuidHex nowIso : String) : AppointmentRec :=
  { id := makeNewId uuidHex,
    patient_name := inp.patient_name,
    date := inp.date,
    time := inp.time,
    duration := inp.duration,
    doctor_name := inp.doctor_name,
    status := pyOrString inp.status "Scheduled",
    mode := inp.mode,
    created_at := nowIso ++ "Z" }

/-- `create_appointment` from appointment_service.py. The scan raises
on the first conflicting candidate in insertion order; otherwise the
new dict is appended and then converted to an `AppointmentResponse`
(the append happens before that conversion validates). Returns the
result together with the database after the call. -/
def create_appointment (db : List AppointmentRec) (input_data : CreateInput)
    (uuidHex nowIso : String) :
    Except SvcError AppointmentRec × List AppointmentRec :=
  let new_end_time := calculate_end_time input_data.time input_data.duration
  match db.find? (fun a => conflictCandidate input_data new_end_time a) with
  | some a => (Except.error (SvcError.valueError (conflictMsg input_data a)), db)
  | none =>
    let r := newRecord input_data uuidHex nowIso
    if responseValid r then (Except.ok r, db ++ [r])
    else (Except.error SvcError.validationError, db ++ [r])

/-- `update_appointment_status` from appointment_service.py: the first
record with the id has its status field mutated in place, and only then
is `AppointmentResponse(**apt)` constructed (so the mutation persists
even when that validation fails). Returns the result together with the
database after the call. -/
def update_appointment_status (db : List AppointmentRec)
    (appointment_id new_status : String) :
    Except SvcError AppointmentRec × List AppointmentRec :=
  match db with
  | [] => (Except.error (SvcError.valueError (notFoundMsg appointment_id)), [])
  | apt :: rest =>
    if apt.id = appointment_id then
      let apt2 := { apt with status := new_status }
      if responseValid apt2 then (Except.ok apt2, apt2 :: rest)
      else (Except.error SvcError.validationError, apt2 :: rest)
    else
      let res := update_appointment_status rest appointment_id new_status
      (res.1, apt :: res.2)

/-- `delete_appointment` from appointment_service.py: pop the first
record with the id, else raise not-found. Returns the result together
with the database after the call. -/
def delete_appointment (db : List AppointmentRec) (appointment_id : String) :
    Except SvcError Bool × List AppointmentRec :=
  match db with
  | [] => (Except.error (SvcError.valueError (notFoundMsg appointment_id)), [])
  | apt :: rest =>
    if apt.id = appointment_id then (Except.ok true, rest)
    else
      let res := delete_appointment rest appointment_id
      (res.1, apt :: res.2)

/-- One `if filter:` step of `get_appointments` (Python truthiness:
None and the empty string both skip the filter). -/
def applyFilter (l : List AppointmentRec) (v : Option String)
    (proj : AppointmentRec → String) : List AppointmentRec :=
  match v with
  | none => l
  | some s => if s = "" then l else l.filter (fun a => decide (proj a = s))

/-- `get_appointments` from appointment_service.py: filter by date,
then status, then doctor_name, then convert every survivor to an
`AppointmentResponse` (which re-validates each record). -/
def get_appointments (db : List AppointmentRec)
    (date status doctor_name : Option String) :
    Except SvcError (List AppointmentRec) :=
  let l1 := applyFilter db date (fun a => a.date)
  let l2 := applyFilter l1 status (fun a => a.status)
  let l3 := applyFilter l2 doctor_name (fun a => a.doctor_name)
  if l3.all responseValid then Except.ok l3 else Except.error SvcError.validationError

/-- Claim-side filter semantics: equality against every provided value,
an absent filter excludes nothing. -/
def optMatch : Option String → String → Bool
  | none, _ => true
  | some v, x => decide (x = v)

/-- Claim-side overlap test for the create path: plain (no buffer)
strict interval overlap with end = start + duration in minutes, over
the same candidate set (same doctor, same date, status not Cancelled
or Completed). -/
def plainConflict (inp : CreateInput) (a : AppointmentRec) : Bool :=
  decide (a.doctor_name = inp.doctor_name) && decide (a.date = inp.date) &&
  !(listHas ["Cancelled", "Completed"] a.status) &&
  (decide (timeToMinutes inp.time < timeToMinutes a.time + a.duration) &&
   decide (timeToMinutes a.time < timeToMinutes inp.time + inp.duration))

/-- Database states reachable from the seeded store by service calls.
The side condition on `create` records the freshness that `uuid4`
provides in practice for the generated id. -/
inductive ReachableDb : List AppointmentRec → Prop where
  | seed : ReachableDb appointments_db
  | create (db : List AppointmentRec) (inp : CreateInput) (uuidHex nowIso : String) :
      ReachableDb db → makeNewId uuidHex ∉ db.map (fun a => a.id) →
      ReachableDb (create_appointment db inp uuidHex nowIso).2
  | update (db : List AppointmentRec) (appointment_id new_status : String) :
      ReachableDb db → ReachableDb (update_appointment_status db appointment_id new_status).2
  | delete (db : List AppointmentRec) (appointment_id : String) :
      ReachableDb db → ReachableDb (delete_appointment db appointment_id).2

/-- A stored appointment whose end, computed in minutes, crosses
midnight (23:00 plus 120 minutes). -/
def exWrapRec : AppointmentRec :=
  { id := "apt-901", patient_name := "Night Patient", date := "2025-12-27",
    time := ⟨23, 0⟩, duration := 120, doctor_name := "Dr. Sarah Johnson",
    status := "Scheduled", mode := "In-person",
    created_at := "2025-12-26T00:00:00Z" }

/-- A create request inside the stored slot above (23:30 for 30 minutes,
same doctor and date). -/
def exWrapInp : CreateInput :=
  { patient_name := "Late Patient", date := "2025-12-27", time := ⟨23, 30⟩,
    duration := 30, doctor_name := "Dr. Sarah Johnson", mode := "Video",
    status := none }

/-- A valid create request with no competing appointments. -/
def exCreateOk : CreateInput :=
  { patient_name := "John Doe", date := "2025-12-28", time := ⟨10, 0⟩,
    duration := 30, doctor_name := "Dr. Fresh Hands", mode := "In-person",
    status := none }

/-- A create request that overlaps the seeded apt-001 slot
(Dr. Sarah Johnson, 2025-12-27, 09:00 for 30 minutes). -/
def exConflictInp : CreateInput :=
  { patient_name := "New Patient", date := "2025-12-27", time := ⟨9, 15⟩,
    duration := 30, doctor_name := "Dr. Sarah Johnson", mode := "In-person",
    status := none }

/-- A valid create request for a doctor absent from the seeded store. -/
def exInpA : CreateInput :=
  { patient_name := "First Twin", date := "2025-12-27", time := ⟨9, 0⟩,
    duration := 30, doctor_name := "Dr. Fresh One", mode := "Video",
    status := none }

/-- A second valid create request for yet another absent doctor. -/
def exInpB : CreateInput :=
  { patient_name := "Second Twin", date := "2025-12-28", time := ⟨10, 0⟩,
    duration := 30, doctor_name := "Dr. Fresh Two", mode := "Phone",
    status := none }

/-- The store after creating `exInpA` with uuid hex "deadbeef1234":
it now holds the id apt-deadbeef. -/
def dbDup : List AppointmentRec :=
  (create_appointment appointments_db exInpA "deadbeef1234" "2025-12-26T22:00:00").2

/-- On a same-day end (no midnight wrap), formatting and re-parsing the
end time preserves the minute count. -/
theorem timeToMinutes_calculate_end_time (t : HHMM) (d : Nat)
    (h : timeToMinutes t + d < 1440) :
    timeToMinutes (calculate_end_time t d) = timeToMinutes t + d := by
  simp only [calculate_end_time, minutesToTime, timeToMinutes] at h ⊢
  omega

/-- C1: detect_overlap returns conflict true iff
m(start1) < m(start2) + d2 + buffer and m(start2) < m(start1) + d1 + buffer
(strict inequalities over minutes since midnight); consequently every
back-to-back pair (m(start2) = m(start1) + d1) yields false with
buffer 0 and true with buffer 5. -/
theorem detect_overlap_flag_spec (t1 : HHMM) (d1 : Nat) (t2 : HHMM) (d2 buffer : Nat) :
    ((detect_overlap t1 d1 t2 d2 buffer).1 = true ↔
      (timeToMinutes t1 < timeToMinutes t2 + d2 + buffer ∧
       timeToMinutes t2 < timeToMinutes t1 + d1 + buffer))
    ∧ (timeToMinutes t2 = timeToMinutes t1 + d1 →
        (detect_overlap t1 d1 t2 d2 0).1 = false ∧
        (detect_overlap t1 d1 t2 d2 5).1 = true) := by
  constructor
  · simp only [detect_overlap]
    split <;> simp_all
  · intro h
    constructor
    · simp only [detect_overlap]
      split
      · omega
      · simp
    · simp only [detect_overlap]
      split
      · simp
      · omega

/-- Witness for detect_overlap_flag_spec at a concrete back-to-back pair:
09:00 for 30 minutes followed by 09:30 for 30 minutes. -/
theorem detect_overlap_flag_spec_witness :
    (detect_overlap ⟨9, 0⟩ 30 ⟨9, 30⟩ 30 0).1 = false ∧
    (detect_overlap ⟨9, 0⟩ 30 ⟨9, 30⟩ 30 5).1 = true :=
  (detect_overlap_flag_spec ⟨9, 0⟩ 30 ⟨9, 30⟩ 30 0).2 (by decide)

/-- C9: validate_business_hours is true iff the hour component lies in
[min_hour, max_hour), ignoring minutes beyond the hour and any
duration; with the defaults, 08:00 is accepted, 19:59 is accepted and
20:00 is rejected. -/
theorem validate_business_hours_spec (t : HHMM) (min_hour max_hour : Int) :
    (validate_business_hours t min_hour max_hour = true ↔
      (min_hour ≤ (t.hour : Int) ∧ (t.hour : Int) < max_hour))
    ∧ validate_business_hours ⟨8, 0⟩ 8 20 = true
    ∧ validate_business_hours ⟨19, 59⟩ 8 20 = true
    ∧ validate_business_hours ⟨20, 0⟩ 8 20 = false :=
  ⟨by simp [validate_business_hours], by decide, by decide, by decide⟩

/-- Witness for validate_business_hours_spec applied at 09:30 within
default business hours. -/
theorem validate_business_hours_spec_witness :
    validate_business_hours ⟨9, 30⟩ 8 20 = true :=
  (validate_business_hours_spec ⟨9, 30⟩ 8 20).1.mpr (by decide)

/-- C10: detect_overlap carries a message exactly when the conflict
flag is true, the message displays each slot's end as start plus
duration only (the buffer is excluded), and the 09:00/30 vs 09:20/30
example with buffer 5 produces the documented message. -/
theorem detect_overlap_message_spec (t1 : HHMM) (d1 : Nat) (t2 : HHMM) (d2 buffer : Nat) :
    ((detect_overlap t1 d1 t2 d2 buffer).2.isSome = (detect_overlap t1 d1 t2 d2 buffer).1)
    ∧ ((detect_overlap t1 d1 t2 d2 buffer).1 = true →
        (detect_overlap t1 d1 t2 d2 buffer).2 =
          some ("Conflict detected: Slot 1 (" ++ formatTime t1 ++ "-"
            ++ formatTime (add_minutes t1 d1) ++ ") overlaps with Slot 2 ("
            ++ formatTime t2 ++ "-" ++ formatTime (add_minutes t2 d2) ++ ")"))
    ∧ detect_overlap ⟨9, 0⟩ 30 ⟨9, 20⟩ 30 5
        = (true, some "Conflict detected: Slot 1 (09:00-09:30) overlaps with Slot 2 (09:20-09:50)") := by
  refine ⟨?_, ?_, by decide⟩
  · simp only [detect_overlap]
    split <;> simp
  · simp only [detect_overlap]
    split <;> simp

/-- Witness for detect_overlap_message_spec at the documented example. -/
theorem detect_overlap_message_spec_witness :
    (detect_overlap ⟨9, 0⟩ 30 ⟨9, 20⟩ 30 5).2 =
      some ("Conflict detected: Slot 1 (" ++ formatTime ⟨9, 0⟩ ++ "-"
        ++ formatTime (add_minutes ⟨9, 0⟩ 30) ++ ") overlaps with Slot 2 ("
        ++ formatTime ⟨9, 20⟩ ++ "-" ++ formatTime (add_minutes ⟨9, 20⟩ 30) ++ ")") :=
  (detect_overlap_message_spec ⟨9, 0⟩ 30 ⟨9, 20⟩ 30 5).2.1 (by decide)

/-- C3: a successful create_appointment call appends exactly one new
record at the end of the store (leaving every pre-existing record in
place), the record carries the input's patient_name, date, time,
duration, doctor_name and mode, the generated id, a created_at equal to
the UTC isoformat timestamp with "Z" appended, and a status defaulting
to "Scheduled" when the input provides none; the returned record is
the inserted one, and the generated id is new whenever the uuid-based
id is fresh. -/
theorem create_appointment_success_appends (db : List AppointmentRec)
    (inp : CreateInput) (uuidHex nowIso : String) (r : AppointmentRec)
    (h : (create_appointment db inp uuidHex nowIso).1 = Except.ok r) :
    (create_appointment db inp uuidHex nowIso).2 = db ++ [r]
    ∧ r.patient_name = inp.patient_name ∧ r.date = inp.date
    ∧ r.time = inp.time ∧ r.duration = inp.duration
    ∧ r.doctor_name = inp.doctor_name ∧ r.mode = inp.mode
    ∧ r.id = makeNewId uuidHex ∧ r.created_at = nowIso ++ "Z"
    ∧ (inp.status = none → r.status = "Scheduled")
    ∧ (makeNewId uuidHex ∉ db.map (fun a => a.id) →
        r.id ∉ db.map (fun a => a.id)) := by
  revert h
  simp only [create_appointment]
  cases hf : List.find? (fun a =>
      conflictCandidate inp (calculate_end_time inp.time inp.duration) a) db with
  | some a => intro h; cases h
  | none =>
    simp only
    split
    · intro h
      cases h
      refine ⟨rfl, rfl, rfl, rfl, rfl, rfl, rfl, rfl, rfl,
        fun hst => by simp [newRecord, hst, pyOrString], fun hni => hni⟩
    · intro h; cases h

/-- Witness for create_appointment_success_appends: a concrete valid
create on the empty store succeeds and appends the built record. -/
theorem create_appointment_success_appends_witness :
    (create_appointment [] exCreateOk "abc12345wxyz" "2025-12-27T08:00:00").2
      = [] ++ [newRecord exCreateOk "abc12345wxyz" "2025-12-27T08:00:00"] :=
  (create_appointment_success_appends [] exCreateOk "abc12345wxyz"
    "2025-12-27T08:00:00" (newRecord exCreateOk "abc12345wxyz" "2025-12-27T08:00:00")
    (by decide)).1

/-- C5: when create_appointment fails with a conflict ValueError, the
store after the call is exactly the store before it (the scan raises
before any mutation). -/
theorem create_appointment_conflict_preserves_store (db : List AppointmentRec)
    (inp : CreateInput) (uuidHex nowIso : String) (msg : String)
    (h : (create_appointment db inp uuidHex nowIso).1
        = Except.error (SvcError.valueError msg)) :
    (create_appointment db inp uuidHex nowIso).2 = db := by
  revert h
  simp only [create_appointment]
  cases hf : List.find? (fun a =>
      conflictCandidate inp (calculate_end_time inp.time inp.duration) a) db with
  | some a => intro _; rfl
  | none =>
    simp only
    split
    · intro h; cases h
    · intro h; cases h

/-- Witness for create_appointment_conflict_preserves_store: the
seeded store is unchanged after the conflicting 09:15 create for
Dr. Sarah Johnson on 2025-12-27. -/
theorem create_appointment_conflict_preserves_store_witness :
    (create_appointment appointments_db exConflictInp "00aa11bb"
        "2025-12-26T22:00:00").2 = appointments_db :=
  create_appointment_conflict_preserves_store appointments_db exConflictInp
    "00aa11bb" "2025-12-26T22:00:00"
    "Time conflict: Dr. Sarah Johnson already has an appointment from 09:00 to 09:30 on 2025-12-27"
    (by decide)

/-- A status admissible on create stays admissible after the
`status or "Scheduled"` defaulting. -/
theorem pyOrString_status_allowed (st : Option String)
    (h : (match st with
          | none => true
          | some s => listHas allowedCreateStatuses s) = true) :
    listHas allowedStatuses (pyOrString st "Scheduled") = true := by
  cases st with
  | none => decide
  | some s =>
    simp only [listHas, allowedCreateStatuses, List.any_cons, List.any_nil,
      Bool.or_eq_true, decide_eq_true_eq] at h
    rcases h with h | h | h
    · subst h; decide
    · subst h; decide
    · rcases h with h | h
      · subst h; decide
      · cases h

/-- A record built from a valid create input passes the
AppointmentResponse validation. -/
theorem responseValid_newRecord (inp : CreateInput) (uuidHex nowIso : String)
    (h : createInputValid inp = true) :
    responseValid (newRecord inp uuidHex nowIso) = true := by
  simp only [createInputValid, Bool.and_eq_true] at h
  obtain ⟨⟨⟨⟨⟨⟨h1, h2⟩, h3⟩, h4⟩, h5⟩, h6⟩, h7⟩ := h
  simp only [responseValid, newRecord, Bool.and_eq_true]
  exact ⟨⟨⟨⟨⟨⟨h1, h2⟩, h3⟩, h4⟩, h5⟩, h6⟩, pyOrString_status_allowed inp.status h7⟩

/-- find? respects a pointwise-equal predicate over the list. -/
theorem find_congr_on (p q : AppointmentRec → Bool) (l : List AppointmentRec)
    (h : ∀ a ∈ l, p a = q a) : l.find? p = l.find? q := by
  induction l with
  | nil => rfl
  | cons a l ih =>
    simp only [List.find?]
    rw [h a (List.mem_cons_self a l)]
    cases hq : q a with
    | true => rfl
    | false => exact ih (fun x hx => h x (List.mem_cons_of_mem a hx))

/-- When neither interval crosses midnight, the candidate test of the
create scan coincides with the plain minute-arithmetic overlap test. -/
theorem conflictCandidate_eq_plainConflict (inp : CreateInput) (a : AppointmentRec)
    (hN : timeToMinutes inp.time + inp.duration < 1440)
    (hA : timeToMinutes a.time + a.duration < 1440) :
    conflictCandidate inp (calculate_end_time inp.time inp.duration) a
      = plainConflict inp a := by
  simp only [conflictCandidate, plainConflict, check_time_overlap,
    timeToMinutes_calculate_end_time _ _ hN, timeToMinutes_calculate_end_time _ _ hA]

/-- C2 (amended): for a valid create input, provided the new slot and
every stored slot end within the same day, create_appointment fails
with the conflict ValueError naming the doctor, the conflicting slot's
time range and the date iff the store holds a same-doctor same-date
candidate (status neither Cancelled nor Completed) passing the plain
no-buffer overlap test with end = start + duration; the scan stops at
the first such candidate in insertion order, and otherwise the
appointment is created. -/
theorem create_appointment_conflict_spec (db : List AppointmentRec)
    (inp : CreateInput) (uuidHex nowIso : String)
    (hValid : createInputValid inp = true)
    (hNew : timeToMinutes inp.time + inp.duration < 1440)
    (hDb : ∀ a ∈ db, timeToMinutes a.time + a.duration < 1440) :
    (create_appointment db inp uuidHex nowIso).1 =
      (match db.find? (fun a => plainConflict inp a) with
       | some a => Except.error (SvcError.valueError (conflictMsg inp a))
       | none => Except.ok (newRecord inp uuidHex nowIso)) := by
  simp only [create_appointment]
  rw [find_congr_on _ _ db
    (fun a ha => conflictCandidate_eq_plainConflict inp a hNew (hDb a ha))]
  cases hf : db.find? (fun a => plainConflict inp a) with
  | some a => simp [hf]
  | none => simp [hf, responseValid_newRecord inp uuidHex nowIso hValid]

/-- Witness for create_appointment_conflict_spec: the 09:15 create for
Dr. Sarah Johnson on 2025-12-27 against the seeded store resolves to
the first plain-overlap candidate's conflict error. -/
theorem create_appointment_conflict_spec_witness :
    (create_appointment appointments_db exConflictInp "00aa11bb"
        "2025-12-26T22:00:00").1 =
      (match appointments_db.find? (fun a => plainConflict exConflictInp a) with
       | some a => Except.error (SvcError.valueError (conflictMsg exConflictInp a))
       | none => Except.ok (newRecord exConflictInp "00aa11bb" "2025-12-26T22:00:00")) :=
  create_appointment_conflict_spec appointments_db exConflictInp "00aa11bb"
    "2025-12-26T22:00:00" (by decide) (by decide) (by decide)

/-- C2 counterexample: a stored 23:00 slot of 120 minutes wraps past
midnight when its end time is formatted, so the 23:30 create for the
same doctor and date satisfies the claim's plain overlap test with
end = start + duration, yet create_appointment succeeds instead of
failing with a conflict. -/
theorem create_appointment_wrap_counterexample :
    plainConflict exWrapInp exWrapRec = true ∧
    (create_appointment [exWrapRec] exWrapInp "cafef00d" "2025-12-26T00:00:00").1
      = Except.ok (newRecord exWrapInp "cafef00d" "2025-12-26T00:00:00") := by
  decide

/-- Rotation of a three-fold Bool conjunction. -/
theorem bool_and_rot (x y z : Bool) : (z && (y && x)) = ((x && y) && z) := by
  cases x <;> cases y <;> cases z <;> rfl

/-- A provided non-empty filter value reduces one `if filter:` step to a
plain equality filter; an absent filter is the identity. -/
theorem applyFilter_eq_filter (l : List AppointmentRec) (v : Option String)
    (proj : AppointmentRec → String) (h : v ≠ some "") :
    applyFilter l v proj = l.filter (fun a => optMatch v (proj a)) := by
  cases v with
  | none => simp [applyFilter, optMatch]
  | some s =>
    simp only [applyFilter]
    rw [if_neg (fun hs => h (by rw [hs]))]
    rfl

/-- C4 (amended): when every stored record passes the response-model
validation and no provided filter value is the empty string (Python
truthiness treats an empty-string filter as absent), get_appointments
returns exactly the stored appointments whose fields equal every
provided filter value, ANDed, in insertion order, with no truncation. -/
theorem get_appointments_filter_spec (db : List AppointmentRec)
    (date status doctor_name : Option String)
    (hv : ∀ a ∈ db, responseValid a = true)
    (hd : date ≠ some "") (hs : status ≠ some "") (hdn : doctor_name ≠ some "") :
    get_appointments db date status doctor_name =
      Except.ok (db.filter (fun a =>
        optMatch date a.date && optMatch status a.status &&
        optMatch doctor_name a.doctor_name)) := by
  simp only [get_appointments, applyFilter_eq_filter _ _ _ hd,
    applyFilter_eq_filter _ _ _ hs, applyFilter_eq_filter _ _ _ hdn,
    List.filter_filter]
  rw [List.filter_congr (fun a _ => bool_and_rot (optMatch date a.date)
    (optMatch status a.status) (optMatch doctor_name a.doctor_name))]
  rw [if_pos]
  rw [List.all_eq_true]
  intro a ha
  exact hv a (List.mem_filter.mp ha).1

/-- Witness for get_appointments_filter_spec: filtering the seeded
store by status Scheduled returns exactly the Scheduled rows in
insertion order. -/
theorem get_appointments_filter_spec_witness :
    get_appointments appointments_db none (some "Scheduled") none =
      Except.ok (appointments_db.filter (fun a =>
        optMatch none a.date && optMatch (some "Scheduled") a.status &&
        optMatch none a.doctor_name)) :=
  get_appointments_filter_spec appointments_db none (some "Scheduled") none
    (by decide) (by decide) (by decide) (by decide)

/-- C4 counterexample: with the provided filter value "" for status,
get_appointments returns every seeded record (Python truthiness skips
the filter) instead of the records whose status equals the provided
value, so the claimed equality-filter semantics fails. -/
theorem get_appointments_empty_filter_counterexample :
    get_appointments appointments_db none (some "") none = Except.ok appointments_db
    ∧ get_appointments appointments_db none (some "") none ≠
        Except.ok (appointments_db.filter (fun a =>
          optMatch none a.date && optMatch (some "") a.status &&
          optMatch none a.doctor_name)) := by
  decide

/-- When no stored record carries the id, update raises the not-found
ValueError and leaves the store unchanged. -/
theorem update_not_found (db : List AppointmentRec) (appointment_id new_status : String)
    (h : db.find? (fun a => decide (a.id = appointment_id)) = none) :
    update_appointment_status db appointment_id new_status
      = (Except.error (SvcError.valueError (notFoundMsg appointment_id)), db) := by
  induction db with
  | nil => rfl
  | cons apt rest ih =>
    simp only [List.find?] at h
    cases hid : decide (apt.id = appointment_id) with
    | true => rw [hid] at h; cases h
    | false =>
      rw [hid] at h
      simp only [update_appointment_status, if_neg (of_decide_eq_false hid), ih h]

/-- When the first stored record with the id is `a`, update mutates it
and returns according to the response-model validation of the mutated
record. -/
theorem update_found (db : List AppointmentRec) (appointment_id new_status : String)
    (a : AppointmentRec)
    (h : db.find? (fun x => decide (x.id = appointment_id)) = some a) :
    (update_appointment_status db appointment_id new_status).1 =
      (if responseValid { a with status := new_status }
       then Except.ok { a with status := new_status }
       else Except.error SvcError.validationError) := by
  induction db with
  | nil => cases h
  | cons apt rest ih =>
    simp only [List.find?] at h
    cases hid : decide (apt.id = appointment_id) with
    | true =>
      rw [hid] at h
      cases h
      simp only [update_appointment_status, if_pos (of_decide_eq_true hid)]
      split <;> rfl
    | false =>
      rw [hid] at h
      simp only [update_appointment_status, if_neg (of_decide_eq_false hid)]
      exact ih h

/-- When no stored record carries the id, delete raises the not-found
ValueError and leaves the store unchanged. -/
theorem delete_not_found (db : List AppointmentRec) (appointment_id : String)
    (h : db.find? (fun a => decide (a.id = appointment_id)) = none) :
    delete_appointment db appointment_id
      = (Except.error (SvcError.valueError (notFoundMsg appointment_id)), db) := by
  induction db with
  | nil => rfl
  | cons apt rest ih =>
    simp only [List.find?] at h
    cases hid : decide (apt.id = appointment_id) with
    | true => rw [hid] at h; cases h
    | false =>
      rw [hid] at h
      simp only [delete_appointment, if_neg (of_decide_eq_false hid), ih h]

/-- When a stored record carries the id, delete returns true and
removes the first such record. -/
theorem delete_found (db : List AppointmentRec) (appointment_id : String)
    (a : AppointmentRec)
    (h : db.find? (fun x => decide (x.id = appointment_id)) = some a) :
    (delete_appointment db appointment_id).1 = Except.ok true ∧
    (delete_appointment db appointment_id).2
      = db.eraseP (fun x => decide (x.id = appointment_id)) := by
  induction db with
  | nil => cases h
  | cons apt rest ih =>
    simp only [List.find?] at h
    cases hid : decide (apt.id = appointment_id) with
    | true =>
      rw [hid] at h
      cases h
      simp only [delete_appointment, if_pos (of_decide_eq_true hid),
        List.eraseP_cons, hid, cond_true]
      exact ⟨trivial, trivial⟩
    | false =>
      rw [hid] at h
      simp only [delete_appointment, if_neg (of_decide_eq_false hid),
        List.eraseP_cons, hid, cond_false]
      exact ⟨(ih h).1, by rw [(ih h).2]⟩

/-- Replacing the status of a valid record by an allowed status keeps
the record valid for the response model. -/
theorem responseValid_setStatus (a : AppointmentRec) (new_status : String)
    (ha : responseValid a = true)
    (hst : listHas allowedStatuses new_status = true) :
    responseValid { a with status := new_status } = true := by
  simp only [responseValid, Bool.and_eq_true] at ha ⊢
  exact ⟨ha.1, hst⟩

/-- C8 (amended): update_appointment_status fails with the NotFound
ValueError iff no stored appointment has the id; when the id is
present and the new status is one of the enumerated status values
(and the stored records are valid for the response model), it returns
the first matching record with its status replaced. delete_appointment
fails with the NotFound ValueError iff no stored appointment has the
id, and otherwise removes the first record with that id and returns
true. (As literally stated the claim fails: an out-of-set status makes
update raise a validation error instead of returning the record.) -/
theorem update_delete_not_found_spec (db : List AppointmentRec)
    (appointment_id new_status : String)
    (hv : ∀ a ∈ db, responseValid a = true)
    (hst : listHas allowedStatuses new_status = true) :
    ((update_appointment_status db appointment_id new_status).1
        = Except.error (SvcError.valueError (notFoundMsg appointment_id))
      ↔ ∀ a ∈ db, a.id ≠ appointment_id)
    ∧ (∀ a, db.find? (fun x => decide (x.id = appointment_id)) = some a →
        (update_appointment_status db appointment_id new_status).1
          = Except.ok { a with status := new_status })
    ∧ ((delete_appointment db appointment_id).1
        = Except.error (SvcError.valueError (notFoundMsg appointment_id))
      ↔ ∀ a ∈ db, a.id ≠ appointment_id)
    ∧ (∀ a, db.find? (fun x => decide (x.id = appointment_id)) = some a →
        (delete_appointment db appointment_id).1 = Except.ok true ∧
        (delete_appointment db appointment_id).2
          = db.eraseP (fun x => decide (x.id = appointment_id))) := by
  have hupd : ∀ a, db.find? (fun x => decide (x.id = appointment_id)) = some a →
      (update_appointment_status db appointment_id new_status).1
        = Except.ok { a with status := new_status } := by
    intro a ha
    rw [update_found db appointment_id new_status a ha,
      if_pos (responseValid_setStatus a new_status
        (hv a (List.mem_of_find?_eq_some ha)) hst)]
  refine ⟨⟨?_, ?_⟩, hupd, ⟨?_, ?_⟩, fun a ha => delete_found db appointment_id a ha⟩
  · intro h
    cases hf : db.find? (fun x => decide (x.id = appointment_id)) with
    | some a => rw [hupd a hf] at h; cases h
    | none =>
      intro a ha
      have := List.find?_eq_none.mp hf a ha
      simpa using this
  · intro h
    have hf : db.find? (fun x => decide (x.id = appointment_id)) = none :=
      List.find?_eq_none.mpr (fun x hx => by simpa using h x hx)
    rw [update_not_found db appointment_id new_status hf]
  · intro h
    cases hf : db.find? (fun x => decide (x.id = appointment_id)) with
    | some a => rw [(delete_found db appointment_id a hf).1] at h; cases h
    | none =>
      intro a ha
      have := List.find?_eq_none.mp hf a ha
      simpa using this
  · intro h
    have hf : db.find? (fun x => decide (x.id = appointment_id)) = none :=
      List.find?_eq_none.mpr (fun x hx => by simpa using h x hx)
    rw [delete_not_found db appointment_id hf]

/-- Witness for update_delete_not_found_spec: updating the unknown id
apt-999 on the seeded store fails with the NotFound ValueError. -/
theorem update_delete_not_found_spec_witness :
    (update_appointment_status appointments_db "apt-999" "Confirmed").1
      = Except.error (SvcError.valueError (notFoundMsg "apt-999")) :=
  (update_delete_not_found_spec appointments_db "apt-999" "Confirmed"
    (by decide) (by decide)).1.mpr (by decide)

/-- C8 counterexample: apt-001 is present in the seeded store, yet
updating it to the status "Bogus" neither fails with NotFound nor
returns an updated record — it raises the response-model validation
error, refuting the claim as stated. -/
theorem update_present_id_without_record_counterexample :
    (appointments_db.find? (fun a => decide (a.id = "apt-001"))).isSome = true
    ∧ (update_appointment_status appointments_db "apt-001" "Bogus").1
        = Except.error SvcError.validationError := by
  decide

/-- C6: evaluating the code at the failing input: the GraphQL mutation
accepts an arbitrary status string, and update_appointment_status
mutates the stored record to status "Bogus" before its own
AppointmentResponse validation raises, leaving a status outside the
enumerated set in the store. -/
theorem update_status_stores_invalid_status :
    (update_appointment_status appointments_db "apt-001" "Bogus").1
      = Except.error SvcError.validationError
    ∧ (update_appointment_status appointments_db "apt-001" "Bogus").2.any
        (fun a => !(listHas allowedStatuses a.status)) = true := by
  decide

/-- create_appointment either leaves the store unchanged (conflict) or
appends exactly the built record. -/
theorem create_appointment_store_cases (db : List AppointmentRec)
    (inp : CreateInput) (uuidHex nowIso : String) :
    (create_appointment db inp uuidHex nowIso).2 = db ∨
    (create_appointment db inp uuidHex nowIso).2
      = db ++ [newRecord inp uuidHex nowIso] := by
  simp only [create_appointment]
  cases List.find? (fun a =>
      conflictCandidate inp (calculate_end_time inp.time inp.duration) a) db with
  | some a => exact Or.inl rfl
  | none =>
    simp only
    split
    · exact Or.inr rfl
    · exact Or.inr rfl

/-- update_appointment_status only ever rewrites a status field, so
the sequence of stored ids is untouched. -/
theorem update_appointment_status_ids (db : List AppointmentRec)
    (appointment_id new_status : String) :
    (update_appointment_status db appointment_id new_status).2.map (fun a => a.id)
      = db.map (fun a => a.id) := by
  induction db with
  | nil => rfl
  | cons apt rest ih =>
    simp only [update_appointment_status]
    split
    · split <;> simp [List.map_cons]
    · simp [List.map_cons, ih]

/-- The store after delete_appointment is a sublist of the store
before it. -/
theorem delete_appointment_sublist (db : List AppointmentRec)
    (appointment_id : String) :
    (delete_appointment db appointment_id).2.Sublist db := by
  induction db with
  | nil => exact List.Sublist.refl []
  | cons apt rest ih =>
    simp only [delete_appointment]
    split
    · exact List.sublist_cons_self apt rest
    · exact List.Sublist.cons₂ apt ih

/-- C7 (amended): insertion never checks for a duplicate id (it appends
unconditionally), but provided each create step's generated uuid-based
id is fresh — which is what the uuid4 generator gives in practice —
every store reachable from the seeded store by create, update-status
and delete operations has pairwise-distinct appointment ids. -/
theorem reachable_ids_nodup (db : List AppointmentRec) (h : ReachableDb db) :
    (db.map (fun a => a.id)).Nodup := by
  induction h with
  | seed => decide
  | create db inp uuidHex nowIso hr hfresh ih =>
    rcases create_appointment_store_cases db inp uuidHex nowIso with h2 | h2 <;> rw [h2]
    · exact ih
    · rw [List.map_append]
      refine List.Nodup.append ih (List.nodup_singleton _) ?_
      simp only [List.map_cons, List.map_nil]
      rw [List.disjoint_singleton]
      exact hfresh
  | update db appointment_id new_status hr ih =>
    rw [update_appointment_status_ids]
    exact ih
  | delete db appointment_id hr ih =>
    exact (((delete_appointment_sublist db appointment_id).map (fun a => a.id)).nodup ih)

/-- Witness for reachable_ids_nodup at the seeded store. -/
theorem reachable_ids_nodup_witness :
    ((appointments_db.map (fun a => a.id)).Nodup) :=
  reachable_ids_nodup appointments_db ReachableDb.seed

/-- C7 counterexample: after one create with uuid hex "deadbeef1234",
the id apt-deadbeef is already present, yet a second create with the
same uuid hex succeeds instead of failing, and the resulting store has
a duplicated id. -/
theorem duplicate_id_insert_succeeds_counterexample :
    makeNewId "deadbeef1234" ∈ dbDup.map (fun a => a.id)
    ∧ (create_appointment dbDup exInpB "deadbeef1234" "2025-12-26T23:00:00").1
        = Except.ok (newRecord exInpB "deadbeef1234" "2025-12-26T23:00:00")
    ∧ ¬ ((create_appointment dbDup exInpB "deadbeef1234"
          "2025-12-26T23:00:00").2.map (fun a => a.id)).Nodup := by
  decide
